/-
  Verification of the qq.py connection-state / entity-model core.

  Shallow embedding of the relevant parts of the repository:
    * `qq/abc.py`    — `GuildChannel.move`, `GuildChannel._move`
    * `qq/role.py`   — `Role.__lt__`
    * `qq/message.py`— handler table, `Message._update`, cached properties,
                       `clean_content`, `_handle_author`, `_handle_member`
    * `qq/guild.py`  — `Guild.fetch_channel`, `Guild.fetch_member`, `Guild._add_member`
    * `qq/partial_emoji.py` — `PartialEmoji.__eq__`

  Python `dict`s keyed by id are embedded as association lists that preserve
  insertion order (as Python dicts do); object reference identity is embedded
  by an explicit `ref : Nat` token carried by every heap object; exceptions
  are embedded with `Except` / explicit result types.
-/
import Mathlib

namespace QQPy

/-- Errors of `qq/error.py` that the embedded code can raise, plus the Python
built-in exceptions that appear in the modelled paths. -/
inductive PyError where
  | invalidArgument (msg : String)
  | invalidData (msg : String)
  | attributeError
  | runtimeError (msg : String)
  deriving Repr, DecidableEq

/-! ## Association-list maps (Python `dict` keyed by id, insertion ordered) -/

/-- `d[k] = v` on a Python dict: overwrite in place if the key exists,
else append at the end (insertion order preserved). -/
def dictSet {κ α : Type} [DecidableEq κ] (k : κ) (v : α) : List (κ × α) → List (κ × α)
  | [] => [(k, v)]
  | (k', v') :: rest => if k' = k then (k, v) :: rest else (k', v') :: dictSet k v rest

/-- `d.get(k)` on a Python dict. -/
def dictGet {κ α : Type} [DecidableEq κ] (k : κ) : List (κ × α) → Option α
  | [] => none
  | (k', v') :: rest => if k' = k then some v' else dictGet k rest

/-- `del d[k]` tolerating absence (`delattr` wrapped in `except AttributeError:
pass`); dict keys are unique, so dropping every pair with this key is the
deletion of the one entry. -/
def dictDel {κ α : Type} [DecidableEq κ] (k : κ) : List (κ × α) → List (κ × α)
  | [] => []
  | (k', v') :: rest => if k' = k then dictDel k rest else (k', v') :: dictDel k rest

/-! ## Channels and `GuildChannel.move` / `GuildChannel._move` (qq/abc.py) -/

/-- The state of a guild channel that `move` reads: id, sort position,
parent category and the `_sorting_bucket` (the channel-type sorting class). -/
structure GuildChannel where
  id : Nat
  position : Int
  category_id : Option Nat
  sorting_bucket : Nat
  deriving Repr, DecidableEq

/-- Strict `(position, id)` lexicographic order, the sort key
`lambda c: (c.position, c.id)` of `move`. -/
def posIdLt (a b : GuildChannel) : Bool :=
  a.position < b.position || (a.position == b.position && a.id < b.id)

/-- Strict order on `position` alone, the sort key `lambda c: c.position`
of `_move`. -/
def posLt (a b : GuildChannel) : Bool :=
  a.position < b.position

/-- Insert into an already sorted list, after any element it does not
strictly precede (this is what makes the sort stable, like Python's). -/
def insertStable (lt : GuildChannel → GuildChannel → Bool) (c : GuildChannel) :
    List GuildChannel → List GuildChannel
  | [] => [c]
  | x :: xs => if lt c x then c :: x :: xs else x :: insertStable lt c xs

/-- Stable insertion sort: Python's `list.sort(key=...)`. -/
def pySort (lt : GuildChannel → GuildChannel → Bool) :
    List GuildChannel → List GuildChannel :=
  go []
where
  go (acc : List GuildChannel) : List GuildChannel → List GuildChannel
    | [] => acc
    | x :: xs => go (insertStable lt x acc) xs

/-- `channels.remove(self)`: drop the first element equal to the subject
(equality of channels is by id, `mixins.Hashable`); returns `none` when the
subject is absent (the `ValueError` branch). -/
def pyRemove (selfId : Nat) : List GuildChannel → Option (List GuildChannel)
  | [] => none
  | x :: xs =>
      if x.id = selfId then some xs
      else (pyRemove selfId xs).map (x :: ·)

/-- Python's `list.insert(i, x)` (index already clamped to `≥ 0` by the
caller; an index past the end appends). -/
def pyInsert {α : Type} (n : Nat) (a : α) : List α → List α
  | [] => [a]
  | x :: xs =>
      match n with
      | 0 => a :: x :: xs
      | n + 1 => x :: pyInsert n a xs

/-- One entry of the bulk-update payload: `{'id': ..., 'position': ...}`,
with `parent_id` present only when the subject's category changes
(`parent := some v` embeds `d.update(parent_id=v)`). -/
structure PayloadEntry where
  id : Nat
  position : Nat
  parent : Option (Option Nat)
  deriving Repr, DecidableEq

/-- The keyword arguments of `GuildChannel.move`.  `none` means the keyword
was not passed; `category = some none` is `category=None`; `otherKwargs`
records whether any further keyword (`reason`, `sync_permissions`) was
passed, which matters only for the `if not kwargs` no-op test. -/
structure MoveArgs where
  beginning : Option Bool := none
  endArg : Option Bool := none
  before : Option Nat := none
  after : Option Nat := none
  offset : Option Int := none
  category : Option (Option Nat) := none
  otherKwargs : Bool := false
  deriving Repr, DecidableEq

/-- `not kwargs` — no keyword argument at all was passed. -/
def MoveArgs.isEmpty (a : MoveArgs) : Bool :=
  a.beginning.isNone && a.endArg.isNone && a.before.isNone && a.after.isNone &&
  a.offset.isNone && a.category.isNone && !a.otherKwargs

/-- The observable outcome of a `move` call: early return, a raised
`InvalidArgument` (before any REST I/O — no payload is ever built on this
path), or the single `bulk_channel_update` REST call with its payload. -/
inductive MoveResult where
  | noop
  | error (e : PyError)
  | bulkUpdate (payload : List PayloadEntry)
  deriving Repr, DecidableEq

/-- The candidate sibling set of `move` (qq/abc.py lines 410-417): the
channels of the guild in the subject's sorting bucket and in the target
parent category — the named one when a real category was passed, else the
subject's current one. -/
def moveCandidates (guildChannels : List GuildChannel) (self : GuildChannel)
    (category : Option (Option Nat)) : List GuildChannel :=
  match category with
  | some (some pid) =>
      guildChannels.filter fun ch =>
        ch.sorting_bucket == self.sorting_bucket && ch.category_id == some pid
  | _ =>
      guildChannels.filter fun ch =>
        ch.sorting_bucket == self.sorting_bucket && ch.category_id == self.category_id

/-- Steps 2-3 of `move` (qq/abc.py lines 420-427): sort the candidates by
`(position, id)` ascending and drop the subject if present. -/
def moveSortedRest (guildChannels : List GuildChannel) (self : GuildChannel)
    (category : Option (Option Nat)) : List GuildChannel :=
  let channels := pySort posIdLt (moveCandidates guildChannels self category)
  (pyRemove self.id channels).getD channels

/-- Step 6 of `move` (qq/abc.py lines 443-448): renumber the final ordered
set `0..n-1`, attaching the `parent_id` change only to the subject's entry
when a `category` keyword was passed. -/
def movePayload (channels : List GuildChannel) (self : GuildChannel)
    (category : Option (Option Nat)) : List PayloadEntry :=
  channels.enum.map fun p =>
    { id := p.2.id, position := p.1
      parent := if category.isSome && p.2.id == self.id
                then some (category.getD none) else none }

/-- `GuildChannel.move` (qq/abc.py lines 366-450), embedded over the list
`guildChannels = self.guild.channels` and the subject channel `self`. -/
def GuildChannel.move (guildChannels : List GuildChannel) (self : GuildChannel)
    (args : MoveArgs) : MoveResult :=
  if args.isEmpty then .noop
  else
    -- truthiness of kwargs.get(...): absent → falsy, False → falsy
    let beginning := args.beginning.getD false
    let ending := args.endArg.getD false
    let offset := args.offset.getD 0
    let count := (if beginning then 1 else 0) + (if ending then 1 else 0) +
      (if args.before.isSome then 1 else 0) + (if args.after.isSome then 1 else 0)
    if count > 1 then .error (.invalidArgument "只能使用 [before, after, end, begin] 之一。")
    else
      let channels := moveSortedRest guildChannels self args.category
      let index : Option Nat :=
        if beginning then some 0
        else if ending then some channels.length
        else match args.before with
        | some bid => channels.findIdx? (fun c => c.id == bid)
        | none =>
            match args.after with
            | some aid => (channels.findIdx? (fun c => c.id == aid)).map (· + 1)
            | none => none
      match index with
      | none => .error (.invalidArgument "无法解析适当的移动位置")
      | some idx =>
          .bulkUpdate (movePayload
            (pyInsert (max ((idx : Int) + offset) 0).toNat self channels) self args.category)

/-- `GuildChannel._move` (qq/abc.py lines 219-253): the positional move used
by `edit(position=...)`.  `parentId = none` embeds the `_undefined` sentinel. -/
def GuildChannel.lowMove (guildChannels : List GuildChannel) (self : GuildChannel)
    (position : Int) (parentId : Option (Option Nat)) : MoveResult :=
  if position < 0 then .error (.invalidArgument "频道位置不能小于 0。")
  else
    let channels := guildChannels.filter fun c => c.sorting_bucket == self.sorting_bucket
    let channels := pySort posLt channels
    match pyRemove self.id channels with
    | none => .noop
    | some channels =>
        let idx := (channels.findIdx? (fun c => c.position ≥ position)).getD channels.length
        let channels := pyInsert idx self channels
        let payload := channels.enum.map fun p =>
          { id := p.2.id, position := p.1
            parent := if parentId.isSome && p.2.id == self.id
                      then some (parentId.getD none) else none }
        .bulkUpdate payload

/-! ## Roles and `Role.__lt__` (qq/role.py) -/

/-- The state of a role that `__lt__` reads: its id and its guild's id
(`self.guild != other.guild` compares guilds by id, `mixins.Hashable`). -/
structure Role where
  id : Nat
  guildId : Nat
  deriving Repr, DecidableEq

/-- `Role.__lt__` (qq/role.py lines 76-95).  A raised `RuntimeError` for a
cross-guild comparison is embedded as `.error`. -/
def Role.lt (self other : Role) : Except PyError Bool :=
  if self.guildId ≠ other.guildId then
    .error (.runtimeError "cannot compare roles from two different guilds.")
  else
    let guild_id := self.guildId
    if self.id = guild_id then
      -- the @everyone role is always the lowest role in hierarchy
      .ok (other.id ≠ guild_id)
    else if self.id < other.id then .ok true
    else if self.id = other.id then .ok (self.id > other.id)
    else .ok false

/-! ## `PartialEmoji.__eq__` (qq/partial_emoji.py) -/

/-- A Python value that can sit in the `id` attribute of a `PartialEmoji`:
`None` (the constructor default), an `int` (custom emoji, `from_dict`,
`from_str` custom branch), or a `str` (`from_str` unicode branch stores the
whole input string in `id`). -/
inductive PyId where
  | pyNone
  | pyInt (n : Int)
  | pyStr (s : String)
  deriving Repr, DecidableEq

/-- Python `==` on such values: values of different built-in types are
unequal; `None == None` is `True`. -/
def PyId.pyEq : PyId → PyId → Bool
  | .pyNone, .pyNone => true
  | .pyInt a, .pyInt b => a == b
  | .pyStr a, .pyStr b => a == b
  | _, _ => false

/-- A `PartialEmoji`: `custom` tag, `name` (the constructor always sets it
to `"emoji"` but it is kept as a field, matching the slot), and `id`. -/
structure PartialEmoji where
  custom : Bool
  name : String := "emoji"
  id : PyId := .pyNone
  deriving Repr, DecidableEq

/-- `PartialEmoji.is_unicode_emoji`. -/
def PartialEmoji.is_unicode_emoji (e : PartialEmoji) : Bool := !e.custom

/-- `PartialEmoji.is_custom_emoji`. -/
def PartialEmoji.is_custom_emoji (e : PartialEmoji) : Bool := e.custom

/-- `PartialEmoji.__eq__` (qq/partial_emoji.py lines 141-147), for the case
where both operands are `PartialEmoji` values (so the `isinstance` tests on
`PartialEmoji` / `_EmojiTag` both succeed). -/
def PartialEmoji.eq (self other : PartialEmoji) : Bool :=
  if self.is_unicode_emoji then self.name == other.name
  else PyId.pyEq self.id other.id

/-! ## Users, members and the connection-state user store -/

/-- The guild-scoped fields of a `Member` beyond its `User` identity
(spec §3: nickname, role-id set). -/
structure MemberFields where
  nick : Option String := none
  roles : List Nat := []
  deriving Repr, DecidableEq

/-- A `User` or `Member` object on the Python heap.  `ref` is the object's
reference identity (two holders share the object iff the `ref`s agree);
`memberData = none` embeds a plain `User`, `memberData = some _` a `Member`
layered over the same identity fields. -/
structure AuthorObj where
  ref : Nat
  id : Nat
  name : String
  bot : Bool := false
  memberData : Option MemberFields := none
  deriving Repr, DecidableEq

/-- `BaseUser.display_name` (qq/user.py lines 116-120) returns `self.name`;
for a `Member` the override is modelled from the spec (qq/member.py is not
part of src/): the guild nickname when set, else the username. -/
def AuthorObj.display_name (a : AuthorObj) : String :=
  match a.memberData with
  | some mf => mf.nick.getD a.name
  | none => a.name

/-- A user payload (`{'id', 'username', 'bot'}`, qq/types/user.py). -/
structure UserPayload where
  id : Nat
  username : String
  bot : Bool := false
  deriving Repr, DecidableEq

/-- The member sub-payload of a message (`nick`, `roles`). -/
structure MemberPayload where
  nick : Option String := none
  roles : List Nat := []
  deriving Repr, DecidableEq

/-- A mention entry: a user payload with an optional member sub-payload
(`UserWithMember`). -/
structure MentionPayload where
  id : Nat
  username : String
  bot : Bool := false
  member : Option MemberPayload := none
  deriving Repr, DecidableEq

/-- A `User` object in the connection state's shared user pool (the pool
holds plain `User` instances only — `Member`s are never stored in it). -/
structure UserRec where
  ref : Nat
  id : Nat
  name : String
  bot : Bool := false
  deriving Repr, DecidableEq

/-- The pooled `User` viewed as an author object (same reference, same
fields, no member data). -/
def UserRec.toAuthorObj (u : UserRec) : AuthorObj :=
  { ref := u.ref, id := u.id, name := u.name, bot := u.bot, memberData := none }

/-- The slice of `ConnectionState` the claims touch: the shared user pool
and a fresh-reference counter standing for Python object allocation. -/
structure ConnectionState where
  users : List (Nat × UserRec) := []
  nextRef : Nat := 0
  deriving Repr, DecidableEq

/-- Modelled from the spec: `ConnectionState.store_user` (qq/state.py is not
part of src/).  Spec §4.1: returns the existing `User` for this id if
present, updating its fields in place and returning the same identity, else
inserts a new one. -/
def ConnectionState.store_user (st : ConnectionState) (p : UserPayload) :
    UserRec × ConnectionState :=
  match dictGet p.id st.users with
  | some u =>
      let u' : UserRec := { u with id := p.id, name := p.username, bot := p.bot }
      (u', { st with users := dictSet p.id u' st.users })
  | none =>
      let u : UserRec := { ref := st.nextRef, id := p.id, name := p.username, bot := p.bot }
      (u, { users := dictSet p.id u st.users, nextRef := st.nextRef + 1 })

/-! ## Guild state, channel factory and the fetch accessors (qq/guild.py) -/

/-- A channel object stored in a guild's channel map (the fields that
`clean_content` and the mention resolution read). -/
structure RChannel where
  id : Nat
  name : String
  deriving Repr, DecidableEq

/-- A role object stored in a guild's role map (the fields that
`clean_content` and `_handle_mention_roles` read). -/
structure RRole where
  id : Nat
  name : String
  deriving Repr, DecidableEq

/-- The slice of a `Guild` the claims touch: its id and its owned
channel / member / role maps. -/
structure Guild where
  id : Nat
  channels : List (Nat × RChannel) := []
  members : List (Nat × AuthorObj) := []
  roles : List (Nat × RRole) := []
  deriving Repr, DecidableEq

/-- `Guild.get_channel` (qq/guild.py lines 284-297): a pure map lookup. -/
def Guild.get_channel (g : Guild) (channelId : Nat) : Option RChannel :=
  dictGet channelId g.channels

/-- `Guild.get_member` (qq/guild.py lines 299-312): a pure map lookup. -/
def Guild.get_member (g : Guild) (userId : Nat) : Option AuthorObj :=
  dictGet userId g.members

/-- `Guild.get_role` (qq/guild.py lines 193-206): a pure map lookup. -/
def Guild.get_role (g : Guild) (roleId : Nat) : Option RRole :=
  dictGet roleId g.roles

/-- `Guild._add_member` (qq/guild.py lines 320-321):
`self._members[member.id] = member`. -/
def Guild.add_member (g : Guild) (m : AuthorObj) : Guild :=
  { g with members := dictSet m.id m g.members }

/-- The channel kinds of the factory table. -/
inductive ChannelKind where
  | text | voice | category | live | app | thread
  deriving Repr, DecidableEq

/-- Modelled from the spec: the fixed channel-type tag → constructor table of
`qq/channel.py::_channel_factory` (qq/channel.py and qq/enum.py are not part
of src/).  Spec §4.3: the mutator maps tag→constructor via a fixed table
(text, category, voice, app, thread); an unrecognized tag has no entry.  The
numeric tag values themselves are modelled; the claims depend only on
membership in the table. -/
def channelFactoryTable : List (Nat × ChannelKind) :=
  [(0, .text), (2, .voice), (4, .category), (10005, .live), (10006, .app), (10007, .thread)]

/-- `_channel_factory(type)`: `none` embeds the factory returning `None` for
an unknown tag. -/
def channelFactory (t : Nat) : Option ChannelKind :=
  dictGet t channelFactoryTable

/-- The raw payload returned by `http.get_channel`. -/
structure ChannelPayload where
  type : Nat
  id : Nat
  guild_id : Nat
  name : String := ""
  deriving Repr, DecidableEq

/-- A channel object freshly constructed by a factory from a payload. -/
structure BuiltChannel where
  kind : ChannelKind
  id : Nat
  name : String
  guildId : Nat
  deriving Repr, DecidableEq

/-- `Guild.fetch_channel` (qq/guild.py lines 720-755), given the payload the
REST call returned.  The guild value is threaded through so that the effect
on `self._channels` is observable: the source constructs and returns the
channel without ever touching the map, so the guild comes back unchanged on
every path. -/
def Guild.fetch_channel (g : Guild) (data : ChannelPayload) :
    Except PyError BuiltChannel × Guild :=
  match channelFactory data.type with
  | none => (.error (.invalidData "Unknown channel type for channel ID"), g)
  | some k =>
      if g.id ≠ data.guild_id then
        (.error (.invalidData "Guild ID resolved to a different guild"), g)
      else
        (.ok { kind := k, id := data.id, name := data.name, guildId := g.id }, g)

/-- The raw payload returned by `http.get_member`. -/
structure FetchMemberPayload where
  id : Nat
  username : String
  bot : Bool := false
  nick : Option String := none
  roles : List Nat := []
  deriving Repr, DecidableEq

/-- `Guild.fetch_member` (qq/guild.py lines 693-718), given the payload the
REST call returned: `return Member(data=data, state=self._state, guild=self)`
— a freshly constructed `Member` (its construction is modelled from the spec,
qq/member.py is not part of src/; `freshRef` stands for the new object's
identity).  The source never touches `self._members`, so the guild comes
back unchanged. -/
def Guild.fetch_member (g : Guild) (freshRef : Nat) (data : FetchMemberPayload) :
    AuthorObj × Guild :=
  ({ ref := freshRef, id := data.id, name := data.username, bot := data.bot,
     memberData := some { nick := data.nick, roles := data.roles } }, g)

/-! ## Message state, handler table and `Message._update` (qq/message.py) -/

/-- A value sitting in one of the `_cs_*` cache slots of a message. -/
inductive CacheVal where
  | ids (l : List Nat)
  | chans (l : List RChannel)
  | text (s : String)
  deriving Repr, DecidableEq

/-- The mutable message fields the handlers write, plus the per-instance
cache of the lazily computed properties (keyed by `_cs_*` slot name; the
caching mechanism `utils.cached_slot_property` is modelled from the spec,
qq/utils.py is not part of src/: properties are computed lazily and cached
per-instance under their slot name). -/
structure Message where
  content : String := ""
  mention_everyone : Option Bool := none
  author : Option AuthorObj := none
  mentions : List AuthorObj := []
  role_mentions : List RRole := []
  attachments : Option String := none
  embeds : Option String := none
  edited_timestamp : Option String := none
  cache : List (String × CacheVal) := []
  deriving Repr, DecidableEq

/-- `Message.__slots__`, transcribed from qq/message.py lines 343-363. -/
def Message.slots : List String :=
  ["_state", "_edited_timestamp", "_cs_channel_mentions", "_cs_raw_mentions",
   "_cs_clean_content", "_cs_raw_channel_mentions", "_cs_system_content",
   "content", "channel", "mention_everyone", "embeds", "id", "mentions",
   "author", "attachments", "guild", "reference", "role_mentions", "created_at"]

/-- The `_handle_<field>` method names of `Message`, in class-definition
order (which is the iteration order of `cls.__dict__`), transcribed from
qq/message.py lines 444-494. -/
def Message.classDictHandlerKeys : List String :=
  ["edited_timestamp", "mention_roles", "mention_everyone", "content",
   "attachments", "embeds", "author", "member", "mentions"]

/-- `flatten_handlers` (qq/message.py lines 274-286), key part: every
`_handle_*` entry of the class dict except `_handle_member`, in definition
order, with `member` appended last. -/
def flattenHandlerKeys (keys : List String) : List String :=
  (keys.filter fun k => k ≠ "member") ++ ["member"]

/-- `Message._HANDLERS`: the fixed, ordered handler table built by
`flatten_handlers`. -/
def Message.HANDLERS : List String :=
  flattenHandlerKeys Message.classDictHandlerKeys

/-- `attr.startswith('_cs_')`, spelled on the character lists so that it
evaluates by kernel reduction. -/
def startsWithCS (s : String) : Bool :=
  "_cs_".data.isPrefixOf s.data

/-- `Message._CACHED_SLOTS` (qq/message.py line 285): the members of
`Message.__slots__` that start with `_cs_`. -/
def Message.CACHED_SLOTS : List String :=
  Message.slots.filter fun s => startsWithCS s

/-- An update payload: `none` per field embeds the key being absent from the
`data` mapping (the `KeyError: continue` branch of `_update`). -/
structure UpdatePayload where
  edited_timestamp : Option String := none
  mention_roles : Option (List Nat) := none
  mention_everyone : Option Bool := none
  content : Option String := none
  attachments : Option String := none
  embeds : Option String := none
  author : Option UserPayload := none
  member : Option MemberPayload := none
  mentions : Option (List MentionPayload) := none
  deriving Repr, DecidableEq

/-- A message together with the shared state it mutates through its
references: the connection state and (optionally) its guild. -/
structure MsgCtx where
  state : ConnectionState := {}
  guild : Option Guild := none
  msg : Message := {}
  deriving Repr, DecidableEq

/-- `Message._handle_author` (qq/message.py lines 467-469):
`self.author = self._state.store_user(author)` followed by
`self.guild._add_member(self.author)`.  When the guild is `None` the second
line raises `AttributeError`; the author field has already been assigned at
that point. -/
def Message.handleAuthor (ctx : MsgCtx) (p : UserPayload) : MsgCtx × Option PyError :=
  let u := (ctx.state.store_user p).1.toAuthorObj
  let st := (ctx.state.store_user p).2
  let msg := { ctx.msg with author := some u }
  match ctx.guild with
  | none => ({ state := st, guild := none, msg := msg }, some .attributeError)
  | some g => ({ state := st, guild := some (g.add_member u), msg := msg }, none)

/-- `Message._handle_member` (qq/message.py lines 471-478).  When the current
author is a `Member`, `author._update_from_message(member)` updates its
mutable fields in place (modelled from the spec, qq/member.py is not part of
src/: nickname and roles are replaced, the reference is kept).  When the
author is a plain `User`, that attribute access raises `AttributeError` (the
`User` classes of qq/user.py define no `_update_from_message`) and the
`except` branch builds a fresh `Member` via `Member._from_message`, merging
the author's identity with the member data (a new object, hence a new
reference).  When no author was ever assigned, reading `self.author` on a
slotted instance raises `AttributeError` outside the `try`. -/
def Message.handleMember (ctx : MsgCtx) (p : MemberPayload) : MsgCtx × Option PyError :=
  match ctx.msg.author with
  | none => (ctx, some .attributeError)
  | some a =>
      match a.memberData with
      | some _ =>
          let a' : AuthorObj := { a with memberData := some { nick := p.nick, roles := p.roles } }
          ({ ctx with msg := { ctx.msg with author := some a' } }, none)
      | none =>
          let m : AuthorObj :=
            { ref := ctx.state.nextRef, id := a.id, name := a.name, bot := a.bot,
              memberData := some { nick := p.nick, roles := p.roles } }
          ({ ctx with
              state := { ctx.state with nextRef := ctx.state.nextRef + 1 },
              msg := { ctx.msg with author := some m } }, none)

/-- Modelled from the spec: `Member._try_upgrade` (qq/member.py is not part
of src/).  Spec §3: a mention is resolved to a `Member` when member data is
embedded, falling back to the shared user store otherwise. -/
def tryUpgrade (st : ConnectionState) (_g : Guild) (p : MentionPayload) :
    AuthorObj × ConnectionState :=
  match p.member with
  | some mf =>
      ({ ref := st.nextRef, id := p.id, name := p.username, bot := p.bot,
         memberData := some { nick := mf.nick, roles := mf.roles } },
       { st with nextRef := st.nextRef + 1 })
  | none =>
      let r := st.store_user { id := p.id, username := p.username, bot := p.bot }
      (r.1.toAuthorObj, r.2)

/-- `Message._handle_mentions` (qq/message.py lines 480-494). -/
def Message.handleMentions (ctx : MsgCtx) (ms : List MentionPayload) : MsgCtx × Option PyError :=
  match ctx.guild with
  | none =>
      let (r, st) := ms.foldl
        (fun (acc : List AuthorObj × ConnectionState) m =>
          let s := acc.2.store_user { id := m.id, username := m.username, bot := m.bot }
          (acc.1 ++ [s.1.toAuthorObj], s.2))
        ([], ctx.state)
      ({ ctx with state := st, msg := { ctx.msg with mentions := r } }, none)
  | some g =>
      let (r, st) := ms.foldl
        (fun (acc : List AuthorObj × ConnectionState) m =>
          match g.get_member m.id with
          | some mem => (acc.1 ++ [mem], acc.2)
          | none =>
              let (u, st) := tryUpgrade acc.2 g m
              (acc.1 ++ [u], st))
        ([], ctx.state)
      ({ ctx with state := st, msg := { ctx.msg with mentions := r } }, none)

/-- `Message._handle_mention_roles` (qq/message.py lines 447-453): resets the
list, then resolves each id through the guild's role map, skipping misses;
with no guild the list stays empty. -/
def Message.handleMentionRoles (ctx : MsgCtx) (ids : List Nat) : MsgCtx × Option PyError :=
  let r := match ctx.guild with
    | some g => ids.filterMap fun i => g.get_role i
    | none => []
  ({ ctx with msg := { ctx.msg with role_mentions := r } }, none)

/-- Dispatch of one `(key, handler)` entry of `_HANDLERS` on a payload:
absent key → `KeyError` → `continue`. -/
def Message.applyHandler (key : String) (ctx : MsgCtx) (p : UpdatePayload) :
    MsgCtx × Option PyError :=
  if key = "edited_timestamp" then
    match p.edited_timestamp with
    | some v => ({ ctx with msg := { ctx.msg with edited_timestamp := some v } }, none)
    | none => (ctx, none)
  else if key = "mention_roles" then
    match p.mention_roles with
    | some v => Message.handleMentionRoles ctx v
    | none => (ctx, none)
  else if key = "mention_everyone" then
    match p.mention_everyone with
    | some v => ({ ctx with msg := { ctx.msg with mention_everyone := some v } }, none)
    | none => (ctx, none)
  else if key = "content" then
    match p.content with
    | some v => ({ ctx with msg := { ctx.msg with content := v } }, none)
    | none => (ctx, none)
  else if key = "attachments" then
    match p.attachments with
    | some v => ({ ctx with msg := { ctx.msg with attachments := some v } }, none)
    | none => (ctx, none)
  else if key = "embeds" then
    match p.embeds with
    | some v => ({ ctx with msg := { ctx.msg with embeds := some v } }, none)
    | none => (ctx, none)
  else if key = "author" then
    match p.author with
    | some v => Message.handleAuthor ctx v
    | none => (ctx, none)
  else if key = "member" then
    match p.member with
    | some v => Message.handleMember ctx v
    | none => (ctx, none)
  else if key = "mentions" then
    match p.mentions with
    | some v => Message.handleMentions ctx v
    | none => (ctx, none)
  else (ctx, none)

/-- `Message._update` (qq/message.py lines 424-442): iterate over the fixed
handler table applying every handler whose key is present; afterwards clear
every cache slot listed in `_CACHED_SLOTS`.  An exception raised by a
handler aborts the loop (later handlers do not run and the cache is not
cleared), with the mutations made so far kept — Python exceptions do not
roll back state.  `runHandlers` is the handler loop of lines 429-435. -/
def Message.runHandlers (ctx : MsgCtx) (p : UpdatePayload) : MsgCtx × Option PyError :=
  Message.HANDLERS.foldl
    (fun (acc : MsgCtx × Option PyError) key =>
      match acc.2 with
      | some _ => acc
      | none => Message.applyHandler key acc.1 p)
    (ctx, none)

/-- `Message._update`, complete: run the handler loop, then (only when no
handler raised) clear every cache slot listed in `_CACHED_SLOTS`. -/
def Message.update (ctx : MsgCtx) (p : UpdatePayload) : MsgCtx × Option PyError :=
  match Message.runHandlers ctx p with
  | (ctx', some e) => (ctx', some e)
  | (ctx', none) =>
      let cleared := Message.CACHED_SLOTS.foldl (fun c s => dictDel s c) ctx'.msg.cache
      ({ ctx' with msg := { ctx'.msg with cache := cleared } }, none)

/-! ## Mention-token scanning and the single-pass substitution

The three `re.findall` patterns of the raw-mention properties and the
`pattern.sub` pass of `clean_content` operate on literal, non-overlapping
token shapes; they are embedded as explicit left-to-right scanners with the
same matching discipline (leftmost match position, first alternative in
pattern order, scanning resumes after the matched text — replaced output is
never rescanned). -/

/-- Split off the leading run of ASCII digits. -/
def spanDigits : List Char → List Char × List Char
  | [] => ([], [])
  | c :: cs =>
      if c.isDigit then
        let (d, r) := spanDigits cs
        (c :: d, r)
      else ([], c :: cs)

/-- Numeric value of a digit run. -/
def digitsToNat (ds : List Char) : Nat :=
  ds.foldl (fun n c => n * 10 + (c.toNat - 48)) 0

/-- Match `<#([0-9]{15,20})>` at the head of the text: the digit run after
`<#` must be 15-20 digits long and be followed by `>` (a longer run never
matches, exactly as the bounded greedy quantifier behaves). -/
def matchChannelTok : List Char → Option (Nat × List Char)
  | '<' :: '#' :: rest =>
      let (ds, rest') := spanDigits rest
      match rest' with
      | '>' :: tail =>
          if 15 ≤ ds.length && ds.length ≤ 20 then some (digitsToNat ds, tail) else none
      | _ => none
  | _ => none

/-- Match `<@!?([0-9]{15,20})>` at the head of the text. -/
def matchUserTok : List Char → Option (Nat × List Char)
  | '<' :: '@' :: rest =>
      let rest := match rest with
        | '!' :: t => t
        | t => t
      let (ds, rest') := spanDigits rest
      match rest' with
      | '>' :: tail =>
          if 15 ≤ ds.length && ds.length ≤ 20 then some (digitsToNat ds, tail) else none
      | _ => none
  | _ => none

/-- Match `<@&([0-9]{15,20})>` at the head of the text. -/
def matchRoleTok : List Char → Option (Nat × List Char)
  | '<' :: '@' :: '&' :: rest =>
      let (ds, rest') := spanDigits rest
      match rest' with
      | '>' :: tail =>
          if 15 ≤ ds.length && ds.length ≤ 20 then some (digitsToNat ds, tail) else none
      | _ => none
  | _ => none

/-- `re.findall`: collect every non-overlapping match left to right.  The
fuel starts at one more than the text length; every step consumes at least
one character while spending one unit, so it never runs out before the text
does. -/
def scanAll (f : List Char → Option (Nat × List Char)) : Nat → List Char → List Nat
  | 0, _ => []
  | _ + 1, [] => []
  | fuel + 1, c :: cs =>
      match f (c :: cs) with
      | some (n, rest) => n :: scanAll f fuel rest
      | none => scanAll f fuel cs

/-- The computation inside `Message.raw_mentions` (qq/message.py 500-504). -/
def computeRawMentions (content : String) : List Nat :=
  scanAll matchUserTok (content.length + 1) content.data

/-- The computation inside `Message.raw_channel_mentions` (506-510). -/
def computeRawChannelMentions (content : String) : List Nat :=
  scanAll matchChannelTok (content.length + 1) content.data

/-- The computation inside `Message.raw_role_mentions` (512-516). -/
def computeRawRoleMentions (content : String) : List Nat :=
  scanAll matchRoleTok (content.length + 1) content.data

/-- First key of the transformation table (in insertion order — the order of
the alternatives in the joined pattern) that is a literal prefix of the
text, with the text after it.  The keys are always non-empty tokens. -/
def firstTokenMatch (keys : List (String × String)) (cs : List Char) :
    Option (String × List Char) :=
  match keys with
  | [] => none
  | (k, v) :: rest =>
      if k.data ≠ [] && k.data.isPrefixOf cs then some (v, cs.drop k.data.length)
      else firstTokenMatch rest cs

/-- The single `pattern.sub(repl, content)` pass: one left-to-right scan,
each match replaced once, output never rescanned. -/
def substChars (keys : List (String × String)) : Nat → List Char → List Char
  | 0, cs => cs
  | _ + 1, [] => []
  | fuel + 1, c :: cs =>
      match firstTokenMatch keys (c :: cs) with
      | some (v, rest) => v.data ++ substChars keys fuel rest
      | none => c :: substChars keys fuel cs

/-- Literal multi-token substitution on a string. -/
def substitute (keys : List (String × String)) (s : String) : String :=
  ⟨substChars keys (s.length + 1) s.data⟩

/-- Modelled from the spec: `utils.escape_mentions` (qq/utils.py is not part
of src/).  Per the `clean_content` doc string, the everyone-mention
`@全体成员` in the produced text is turned into a non-mention (a zero-width
space after the `@`); other text is unchanged. -/
def escape_mentions (s : String) : String :=
  substitute [("@全体成员", "@\u200B全体成员")] s

/-! ## The lazily cached derived properties of `Message`

Each getter follows the `utils.cached_slot_property` protocol (modelled from
the spec; qq/utils.py is not part of src/): return the value cached in the
property's `_cs_*` slot if present, else run the wrapped computation, cache
the result under that slot and return it. -/

/-- `Message.raw_mentions`, cache slot `_cs_raw_mentions`. -/
def Message.raw_mentions (m : Message) : List Nat × Message :=
  match dictGet "_cs_raw_mentions" m.cache with
  | some (.ids l) => (l, m)
  | _ =>
      let v := computeRawMentions m.content
      (v, { m with cache := dictSet "_cs_raw_mentions" (.ids v) m.cache })

/-- `Message.raw_channel_mentions`, cache slot `_cs_raw_channel_mentions`. -/
def Message.raw_channel_mentions (m : Message) : List Nat × Message :=
  match dictGet "_cs_raw_channel_mentions" m.cache with
  | some (.ids l) => (l, m)
  | _ =>
      let v := computeRawChannelMentions m.content
      (v, { m with cache := dictSet "_cs_raw_channel_mentions" (.ids v) m.cache })

/-- `Message.raw_role_mentions`, cache slot `_cs_raw_role_mentions`.  (On a
strictly slotted instance the caching write would itself fail, since
`_cs_raw_role_mentions` is absent from `Message.__slots__`; the cache write
is modelled as succeeding, which only makes the invalidation claim easier to
satisfy.) -/
def Message.raw_role_mentions (m : Message) : List Nat × Message :=
  match dictGet "_cs_raw_role_mentions" m.cache with
  | some (.ids l) => (l, m)
  | _ =>
      let v := computeRawRoleMentions m.content
      (v, { m with cache := dictSet "_cs_raw_role_mentions" (.ids v) m.cache })

/-- Keep the first occurrence of each channel id (`utils._unique`, modelled
from the spec: order-preserving deduplication). -/
def dedupChannels : List RChannel → List RChannel :=
  go []
where
  go (seen : List Nat) : List RChannel → List RChannel
    | [] => []
    | c :: cs => if seen.contains c.id then go seen cs else c :: go (c.id :: seen) cs

/-- `Message.channel_mentions` (qq/message.py 518-530), cache slot
`_cs_channel_mentions`: with no guild the computation returns `[]` at once;
else it resolves `raw_channel_mentions` (itself a cached read) through the
guild channel map, dropping misses and duplicates. -/
def Message.channel_mentions (g : Option Guild) (m : Message) : List RChannel × Message :=
  match dictGet "_cs_channel_mentions" m.cache with
  | some (.chans l) => (l, m)
  | _ =>
      match g with
      | none => ([], { m with cache := dictSet "_cs_channel_mentions" (.chans []) m.cache })
      | some gd =>
          let (raw, m1) := m.raw_channel_mentions
          let v := dedupChannels (raw.filterMap fun i => gd.get_channel i)
          (v, { m1 with cache := dictSet "_cs_channel_mentions" (.chans v) m1.cache })

/-- The transformation table of `clean_content` (qq/message.py 546-573), in
dict insertion order: channel tokens, `<@id>` mention tokens, `<@!id>`
mention tokens, then (only with a guild) role tokens. -/
def cleanContentTable (g : Option Guild) (chans : List RChannel)
    (mentions : List AuthorObj) (roleMentions : List RRole) : List (String × String) :=
  (chans.map fun c => ("<#" ++ toString c.id ++ ">", "#" ++ c.name))
  ++ (mentions.map fun mem => ("<@" ++ toString mem.id ++ ">", "@" ++ mem.display_name))
  ++ (mentions.map fun mem => ("<@!" ++ toString mem.id ++ ">", "@" ++ mem.display_name))
  ++ (match g with
      | some _ => roleMentions.map fun r => ("<@&" ++ toString r.id ++ ">", "@" ++ r.name)
      | none => [])

/-- `Message.clean_content` (qq/message.py 532-580), cache slot
`_cs_clean_content`: build the table, run the single substitution pass over
the content, then `escape_mentions`. -/
def Message.clean_content (g : Option Guild) (m : Message) : String × Message :=
  match dictGet "_cs_clean_content" m.cache with
  | some (.text s) => (s, m)
  | _ =>
      let (chans, m1) := Message.channel_mentions g m
      let table := cleanContentTable g chans m1.mentions m1.role_mentions
      let result := escape_mentions (substitute table m1.content)
      (result, { m1 with cache := dictSet "_cs_clean_content" (.text result) m1.cache })

/-! ## Helper lemmas on the dict embedding and the move payload -/

theorem dictGet_dictSet_self {κ α : Type} [DecidableEq κ] (k : κ) (v : α)
    (d : List (κ × α)) : dictGet k (dictSet k v d) = some v := by
  induction d with
  | nil => simp [dictSet, dictGet]
  | cons hd tl ih =>
      obtain ⟨k', v'⟩ := hd
      by_cases h : k' = k <;> simp [dictSet, dictGet, h, ih]

theorem dictGet_dictDel_self {κ α : Type} [DecidableEq κ] (k : κ)
    (d : List (κ × α)) : dictGet k (dictDel k d) = none := by
  induction d with
  | nil => simp [dictDel, dictGet]
  | cons hd tl ih =>
      obtain ⟨k', v'⟩ := hd
      by_cases h : k' = k <;> simp [dictDel, dictGet, h, ih]

theorem dictGet_dictDel_of_none {κ α : Type} [DecidableEq κ] (s k : κ)
    (d : List (κ × α)) (h : dictGet s d = none) :
    dictGet s (dictDel k d) = none := by
  induction d with
  | nil => simp [dictDel, dictGet]
  | cons hd tl ih =>
      obtain ⟨k', v'⟩ := hd
      by_cases hk : k' = k
      · refine (if h' : k' = s then ?_ else ?_) <;>
          simp_all [dictDel, dictGet]
      · by_cases hs : k' = s <;> simp_all [dictDel, dictGet]

theorem foldl_dictDel_of_none {κ α : Type} [DecidableEq κ] (s : κ)
    (L : List κ) (d : List (κ × α)) (h : dictGet s d = none) :
    dictGet s (L.foldl (fun c k => dictDel k c) d) = none := by
  induction L generalizing d with
  | nil => simpa using h
  | cons k L ih => exact ih _ (dictGet_dictDel_of_none s k d h)

theorem foldl_dictDel_mem {κ α : Type} [DecidableEq κ] (s : κ)
    (L : List κ) (d : List (κ × α)) (h : s ∈ L) :
    dictGet s (L.foldl (fun c k => dictDel k c) d) = none := by
  induction L generalizing d with
  | nil => cases h
  | cons k L ih =>
      rcases List.mem_cons.mp h with rfl | h'
      · exact foldl_dictDel_of_none s L _ (dictGet_dictDel_self s d)
      · exact ih _ h'

theorem movePayload_positions (l : List GuildChannel) (self : GuildChannel)
    (cat : Option (Option Nat)) :
    (movePayload l self cat).map (fun e => e.position) =
      List.range (movePayload l self cat).length := by
  simp only [movePayload, List.map_map, List.length_map, List.enum_length]
  have : ((fun e : PayloadEntry => e.position) ∘ fun p : Nat × GuildChannel =>
      ({ id := p.2.id, position := p.1
         parent := if cat.isSome && p.2.id == self.id
                   then some (cat.getD none) else none } : PayloadEntry)) =
      Prod.fst := rfl
  rw [this, List.enum_map_fst]

theorem movePayload_parent_only (l : List GuildChannel) (self : GuildChannel)
    (cat : Option (Option Nat)) :
    ∀ e ∈ movePayload l self cat, e.parent.isSome = true → e.id = self.id := by
  intro e he hp
  simp only [movePayload, List.mem_map] at he
  obtain ⟨p, _, rfl⟩ := he
  by_cases h : (cat.isSome && p.2.id == self.id) = true
  · have h2 : p.2.id = self.id := by
      have hb := (Bool.and_eq_true _ _).mp h
      exact Nat.beq_eq_true_eq _ _ ▸ hb.2
    simpa using h2
  · simp [h] at hp

/-! ## Claim C2 — role hierarchy order -/

/-- C2: `Role.__lt__` implements the hierarchy order: within one guild, a
default role (id = guild id) is strictly below exactly the non-default
roles, and otherwise `a < b` iff `a.id < b.id`; concretely
`everyone(G) < A(G+5)`, `everyone(G) < B(G+10)`, `A < B`; comparing roles of
different guilds raises the cross-guild error instead of returning. -/
theorem role_lt_hierarchy (a b : Role) :
    (a.guildId = b.guildId →
      Role.lt a b =
        .ok (if a.id = a.guildId then decide (b.id ≠ a.guildId) else decide (a.id < b.id)))
    ∧ (a.guildId ≠ b.guildId →
      Role.lt a b = .error (.runtimeError "cannot compare roles from two different guilds."))
    ∧ (∀ G : Nat,
        Role.lt ⟨G, G⟩ ⟨G + 5, G⟩ = .ok true ∧
        Role.lt ⟨G, G⟩ ⟨G + 10, G⟩ = .ok true ∧
        Role.lt ⟨G + 5, G⟩ ⟨G + 10, G⟩ = .ok true) := by
  refine ⟨fun h => ?_, fun h => ?_, fun G => ?_⟩
  · unfold Role.lt
    rw [if_neg (by simpa using h)]
    split_ifs with hd hlt heq <;> simp_all
  · unfold Role.lt
    rw [if_pos (by simpa using h)]
  · refine ⟨?_, ?_, ?_⟩ <;>
      · unfold Role.lt
        simp

/-- Witness for C2 at `G = 100` and a cross-guild pair. -/
theorem role_lt_hierarchy_witness :
    Role.lt ⟨100, 100⟩ ⟨105, 100⟩ = .ok true ∧
    Role.lt ⟨105, 100⟩ ⟨110, 100⟩ = .ok true ∧
    Role.lt ⟨5, 100⟩ ⟨7, 200⟩ =
      .error (.runtimeError "cannot compare roles from two different guilds.") := by
  refine ⟨?_, ?_, ?_⟩
  · have h := (role_lt_hierarchy ⟨100, 100⟩ ⟨105, 100⟩).1 rfl
    simpa using h
  · have h := (role_lt_hierarchy ⟨105, 100⟩ ⟨110, 100⟩).1 rfl
    simpa using h
  · exact (role_lt_hierarchy ⟨5, 100⟩ ⟨7, 200⟩).2.1 (by decide)

/-! ## Claim C9 — `PartialEmoji` equality -/

/-- C9 counterexample: a unicode emoji and a custom emoji (both carrying the
constructor-default name `"emoji"`) compare equal — `__eq__` on a unicode
left operand compares names against any `PartialEmoji`, so the two kinds of
equality are cross-compatible, refuting the claim's "never". -/
theorem partial_emoji_cross_kind_equal :
    PartialEmoji.is_unicode_emoji { custom := false } = true ∧
    PartialEmoji.is_custom_emoji { custom := true, id := .pyInt 5 } = true ∧
    PartialEmoji.eq { custom := false } { custom := true, id := .pyInt 5 } = true := by
  decide

/-- C9 amended: equality dispatches on the left operand's kind — a unicode
left operand compares by name against any `PartialEmoji` (so two unicode
emoji are equal iff their names agree, but a unicode emoji also equals a
custom one of the same name), and a custom left operand compares by Python
equality of the `id` attributes (so two custom emoji are equal iff their ids
agree, and a custom emoji equals a unicode one whose `id` holds the same
value). -/
theorem partial_emoji_eq_dispatch (a b : PartialEmoji) :
    (a.custom = true → b.custom = true →
      (PartialEmoji.eq a b = true ↔ PyId.pyEq a.id b.id = true))
    ∧ (a.custom = false → b.custom = false →
      (PartialEmoji.eq a b = true ↔ a.name = b.name))
    ∧ (a.custom = false → PartialEmoji.eq a b = (a.name == b.name))
    ∧ (a.custom = true → PartialEmoji.eq a b = PyId.pyEq a.id b.id) := by
    refine ⟨fun ha _ => ?_, fun ha _ => ?_, fun ha => ?_, fun ha => ?_⟩ <;>
      simp [PartialEmoji.eq, PartialEmoji.is_unicode_emoji, ha]

/-- Witness for C9's amended theorem: ids decide two custom emoji, names
decide two unicode emoji. -/
theorem partial_emoji_eq_dispatch_witness :
    (PartialEmoji.eq { custom := true, id := .pyInt 5 } { custom := true, id := .pyInt 5 } = true) ∧
    (PartialEmoji.eq { custom := true, id := .pyInt 5 } { custom := true, id := .pyInt 6 } = false) ∧
    (PartialEmoji.eq { custom := false, name := "a" } { custom := false, name := "a" } = true) ∧
    (PartialEmoji.eq { custom := false, name := "a" } { custom := false, name := "b" } = false) := by
  refine ⟨?_, ?_, ?_, ?_⟩
  · exact ((partial_emoji_eq_dispatch _ _).1 rfl rfl).mpr (by decide)
  · have h := (partial_emoji_eq_dispatch
      { custom := true, id := .pyInt 5 } { custom := true, id := .pyInt 6 }).2.2.2 rfl
    simpa using h
  · exact ((partial_emoji_eq_dispatch _ _).2.1 rfl rfl).mpr rfl
  · have h := (partial_emoji_eq_dispatch
      { custom := false, name := "a" } { custom := false, name := "b" }).2.2.1 rfl
    simpa using h

/-! ## Claims C5/C6 — the fetch-tier accessors -/

/-- C5 counterexample: on a guild with empty maps, `fetch_channel` succeeds
and `fetch_member` returns a member, yet afterwards neither the guild's
channel map nor its member map contains the fetched entity — the fetch tier
returns freshly constructed objects without upserting them into the cache,
refuting the claim at this input. -/
theorem fetch_does_not_upsert_cex :
    ((Guild.fetch_channel { id := 7 } { type := 0, id := 55, guild_id := 7 }).1 =
        .ok { kind := .text, id := 55, name := "", guildId := 7 })
    ∧ (Guild.get_channel (Guild.fetch_channel { id := 7 } { type := 0, id := 55, guild_id := 7 }).2 55
        = none)
    ∧ ((Guild.fetch_member { id := 7 } 0 { id := 9, username := "u" }).1.id = 9)
    ∧ (Guild.get_member (Guild.fetch_member { id := 7 } 0 { id := 9, username := "u" }).2 9
        = none) :=
  ⟨rfl, rfl, rfl, rfl⟩

/-- C5 amended: each fetch form performs the REST round trip and, on
success, returns a freshly constructed entity built from the returned
payload — but it does not insert the result into the guild's channel or
member map; the guild's cache state is unchanged on every path. -/
theorem fetch_returns_fresh_without_caching (g : Guild) (d : ChannelPayload)
    (ref : Nat) (md : FetchMemberPayload) :
    ((Guild.fetch_channel g d).2 = g)
    ∧ ((Guild.fetch_member g ref md).2 = g)
    ∧ (∀ k, channelFactory d.type = some k → g.id = d.guild_id →
        (Guild.fetch_channel g d).1 = .ok { kind := k, id := d.id, name := d.name, guildId := g.id })
    ∧ ((Guild.fetch_member g ref md).1 =
        { ref := ref, id := md.id, name := md.username, bot := md.bot,
          memberData := some { nick := md.nick, roles := md.roles } }) := by
  refine ⟨?_, rfl, fun k hk hg => ?_, rfl⟩
  · unfold Guild.fetch_channel
    cases h : channelFactory d.type <;> simp [h]
    split <;> rfl
  · simp [Guild.fetch_channel, hk, hg]

/-- Witness for C5's amended theorem at a concrete guild and payloads. -/
theorem fetch_returns_fresh_without_caching_witness :
    (Guild.fetch_channel { id := 7 } { type := 0, id := 55, guild_id := 7 }).1 =
      .ok { kind := .text, id := 55, name := "", guildId := 7 } := by
  exact (fetch_returns_fresh_without_caching { id := 7 } { type := 0, id := 55, guild_id := 7 }
    0 { id := 9, username := "u" }).2.2.1 .text (by decide) (by decide)

/-- C6: a direct single-channel fetch raises `InvalidData` when the payload
carries an unknown channel-type tag, and also (whatever the tag) whenever
the payload's guild id differs from the guild fetched on; in every case the
guild's channel map is left untouched, so the offending entity is never
cached. -/
theorem fetch_channel_invalid_data (g : Guild) (d : ChannelPayload) :
    (channelFactory d.type = none →
        Guild.fetch_channel g d =
          (.error (.invalidData "Unknown channel type for channel ID"), g))
    ∧ (g.id ≠ d.guild_id →
        ∃ m, (Guild.fetch_channel g d).1 = .error (.invalidData m))
    ∧ ((Guild.fetch_channel g d).2.channels = g.channels) := by
  refine ⟨fun h => ?_, fun h => ?_, ?_⟩
  · simp [Guild.fetch_channel, h]
  · unfold Guild.fetch_channel
    cases hf : channelFactory d.type
    · exact ⟨_, rfl⟩
    · simp [h]
  · unfold Guild.fetch_channel
    cases hf : channelFactory d.type <;> simp
    split <;> rfl

/-- Witness for C6 at an unknown tag (`1` is not in the factory table) and
at a mismatched guild id. -/
theorem fetch_channel_invalid_data_witness :
    (Guild.fetch_channel { id := 7 } { type := 1, id := 55, guild_id := 7 } =
      (.error (.invalidData "Unknown channel type for channel ID"), { id := 7 }))
    ∧ ∃ m, (Guild.fetch_channel { id := 7 } { type := 0, id := 55, guild_id := 8 }).1 =
        .error (.invalidData m) := by
  refine ⟨?_, ?_⟩
  · exact (fetch_channel_invalid_data { id := 7 } { type := 1, id := 55, guild_id := 7 }).1
      (by decide)
  · exact (fetch_channel_invalid_data { id := 7 } { type := 0, id := 55, guild_id := 8 }).2.1
      (by decide)

/-! ## Claim C1 — channel reordering -/

/-- C1: `move` on siblings positioned `[0,1,2,3]` (ids `100..103`), moving
the last one before id `101`, emits one bulk update `[c0, c3, c1, c2]`
renumbered `0..3`; in general every emitted bulk update renumbers the full
set `0..n-1` and carries a parent-category change only on the subject's own
entry, and each placement mode resolves its insertion index on the
`(position, id)`-sorted candidate set with the subject removed — beginning
inserts at `max(0, 0+offset)`, end at `max(0, n+offset)`, before at
`max(0, idx+offset)` and after at `max(0, idx+1+offset)` where `idx` is the
named sibling's index. -/
theorem move_reorders_siblings :
    (GuildChannel.move
        [⟨100, 0, none, 0⟩, ⟨101, 1, none, 0⟩, ⟨102, 2, none, 0⟩, ⟨103, 3, none, 0⟩]
        ⟨103, 3, none, 0⟩ { before := some 101 } =
      .bulkUpdate [⟨100, 0, none⟩, ⟨103, 1, none⟩, ⟨101, 2, none⟩, ⟨102, 3, none⟩])
    ∧ (∀ chs self args pl, GuildChannel.move chs self args = .bulkUpdate pl →
        pl.map (fun e => e.position) = List.range pl.length)
    ∧ (∀ chs self args pl, GuildChannel.move chs self args = .bulkUpdate pl →
        ∀ e ∈ pl, e.parent.isSome = true → e.id = self.id)
    ∧ (∀ chs (self : GuildChannel) off cat,
        GuildChannel.move chs self { beginning := some true, offset := some off, category := cat } =
          .bulkUpdate (movePayload
            (pyInsert (max ((0 : Int) + off) 0).toNat self (moveSortedRest chs self cat)) self cat))
    ∧ (∀ chs (self : GuildChannel) off cat,
        GuildChannel.move chs self { endArg := some true, offset := some off, category := cat } =
          .bulkUpdate (movePayload
            (pyInsert (max (((moveSortedRest chs self cat).length : Int) + off) 0).toNat self
              (moveSortedRest chs self cat)) self cat))
    ∧ (∀ chs (self : GuildChannel) bid off cat i,
        (moveSortedRest chs self cat).findIdx? (fun c => c.id == bid) = some i →
        GuildChannel.move chs self { before := some bid, offset := some off, category := cat } =
          .bulkUpdate (movePayload
            (pyInsert (max ((i : Int) + off) 0).toNat self (moveSortedRest chs self cat)) self cat))
    ∧ (∀ chs (self : GuildChannel) aid off cat i,
        (moveSortedRest chs self cat).findIdx? (fun c => c.id == aid) = some i →
        GuildChannel.move chs self { after := some aid, offset := some off, category := cat } =
          .bulkUpdate (movePayload
            (pyInsert (max (((i + 1 : Nat) : Int) + off) 0).toNat self
              (moveSortedRest chs self cat)) self cat)) := by
  refine ⟨by decide, ?_, ?_, ?_, ?_, ?_, ?_⟩
  · intro chs self args pl h
    simp only [GuildChannel.move] at h
    repeat' split at h
    all_goals simp at h
    all_goals subst h
    all_goals exact movePayload_positions _ _ _
  · intro chs self args pl h
    simp only [GuildChannel.move] at h
    repeat' split at h
    all_goals simp at h
    all_goals subst h
    all_goals exact movePayload_parent_only _ _ _
  · intro chs self off cat
    rfl
  · intro chs self off cat
    rfl
  · intro chs self bid off cat i h
    simp only [GuildChannel.move]
    rw [if_neg (by simp [MoveArgs.isEmpty])]
    rw [if_neg (by simp)]
    rw [h]
    simp
  · intro chs self aid off cat i h
    simp only [GuildChannel.move]
    rw [if_neg (by simp [MoveArgs.isEmpty])]
    rw [if_neg (by simp)]
    rw [h]
    simp

/-- Witness for C1's conditional parts: the `before` mode applied at the
concrete `[0,1,2,3]` scenario (named sibling at index 1), and the
renumbering fact read off the emitted payload. -/
theorem move_reorders_siblings_witness :
    (GuildChannel.move
        [⟨100, 0, none, 0⟩, ⟨101, 1, none, 0⟩, ⟨102, 2, none, 0⟩, ⟨103, 3, none, 0⟩]
        ⟨103, 3, none, 0⟩ { before := some 101, offset := some 0 } =
      .bulkUpdate (movePayload
        (pyInsert (max ((1 : Int) + 0) 0).toNat ⟨103, 3, none, 0⟩
          (moveSortedRest
            [⟨100, 0, none, 0⟩, ⟨101, 1, none, 0⟩, ⟨102, 2, none, 0⟩, ⟨103, 3, none, 0⟩]
            ⟨103, 3, none, 0⟩ none)) ⟨103, 3, none, 0⟩ none))
    ∧ (([⟨100, 0, none⟩, ⟨103, 1, none⟩, ⟨101, 2, none⟩, ⟨102, 3, none⟩] :
          List PayloadEntry).map (fun e => e.position) =
        List.range ([⟨100, 0, none⟩, ⟨103, 1, none⟩, ⟨101, 2, none⟩, ⟨102, 3, none⟩] :
          List PayloadEntry).length) := by
  refine ⟨?_, ?_⟩
  · exact move_reorders_siblings.2.2.2.2.2.1
      [⟨100, 0, none, 0⟩, ⟨101, 1, none, 0⟩, ⟨102, 2, none, 0⟩, ⟨103, 3, none, 0⟩]
      ⟨103, 3, none, 0⟩ 101 0 none 1 (by decide)
  · exact move_reorders_siblings.2.1
      [⟨100, 0, none, 0⟩, ⟨101, 1, none, 0⟩, ⟨102, 2, none, 0⟩, ⟨103, 3, none, 0⟩]
      ⟨103, 3, none, 0⟩ { before := some 101 } _ (by decide)

/-! ## Claim C7 — move argument validation -/

/-- C7: `move` returns without doing anything on an empty keyword set; it
raises `InvalidArgument` before building any payload when more than one of
beginning/end/before/after is active (truthy), or when the named
before/after sibling is absent from the sorted candidate set; and the
positional `_move` path raises `InvalidArgument` on a negative position.
The error results carry no payload, so no REST call and no state change can
have happened on those paths. -/
theorem move_validation :
    (∀ chs self args, args.isEmpty = true → GuildChannel.move chs self args = .noop)
    ∧ (∀ chs self (args : MoveArgs),
        1 < ((if args.beginning.getD false then 1 else 0) +
             (if args.endArg.getD false then 1 else 0) +
             (if args.before.isSome then 1 else 0) +
             (if args.after.isSome then 1 else 0) : Nat) →
        GuildChannel.move chs self args =
          .error (.invalidArgument "只能使用 [before, after, end, begin] 之一。"))
    ∧ (∀ chs (self : GuildChannel) bid off cat,
        (moveSortedRest chs self cat).findIdx? (fun c => c.id == bid) = none →
        GuildChannel.move chs self { before := some bid, offset := off, category := cat } =
          .error (.invalidArgument "无法解析适当的移动位置"))
    ∧ (∀ chs (self : GuildChannel) aid off cat,
        (moveSortedRest chs self cat).findIdx? (fun c => c.id == aid) = none →
        GuildChannel.move chs self { after := some aid, offset := off, category := cat } =
          .error (.invalidArgument "无法解析适当的移动位置"))
    ∧ (∀ chs (self : GuildChannel) pos pid, pos < 0 →
        GuildChannel.lowMove chs self pos pid =
          .error (.invalidArgument "频道位置不能小于 0。")) := by
  refine ⟨?_, ?_, ?_, ?_, ?_⟩
  · intro chs self args h
    simp [GuildChannel.move, h]
  · intro chs self args hc
    have hne : args.isEmpty = false := by
      rcases args with ⟨b, e, bf, af, off, cat, ok⟩
      cases b <;> cases e <;> cases bf <;> cases af <;>
        simp_all [MoveArgs.isEmpty]
    simp only [GuildChannel.move, hne, Bool.false_eq_true, if_false]
    rw [if_pos hc]
  · intro chs self bid off cat h
    simp [GuildChannel.move, MoveArgs.isEmpty, h]
  · intro chs self aid off cat h
    simp [GuildChannel.move, MoveArgs.isEmpty, h]
  · intro chs self pos pid h
    simp [GuildChannel.lowMove, h]

/-- Witness for C7: the no-op, both-`before`-and-`end` error, unresolvable
`before` error, and negative-position error, each at a concrete input. -/
theorem move_validation_witness :
    (GuildChannel.move [⟨100, 0, none, 0⟩] ⟨100, 0, none, 0⟩ {} = .noop)
    ∧ (GuildChannel.move [⟨100, 0, none, 0⟩] ⟨100, 0, none, 0⟩
        { endArg := some true, before := some 100 } =
        .error (.invalidArgument "只能使用 [before, after, end, begin] 之一。"))
    ∧ (GuildChannel.move [⟨100, 0, none, 0⟩] ⟨100, 0, none, 0⟩ { before := some 999 } =
        .error (.invalidArgument "无法解析适当的移动位置"))
    ∧ (GuildChannel.lowMove [⟨100, 0, none, 0⟩] ⟨100, 0, none, 0⟩ (-1) none =
        .error (.invalidArgument "频道位置不能小于 0。")) := by
  refine ⟨?_, ?_, ?_, ?_⟩
  · exact move_validation.1 [⟨100, 0, none, 0⟩] ⟨100, 0, none, 0⟩ {} (by decide)
  · exact move_validation.2.1 [⟨100, 0, none, 0⟩] ⟨100, 0, none, 0⟩
      { endArg := some true, before := some 100 } (by decide)
  · exact move_validation.2.2.1 [⟨100, 0, none, 0⟩] ⟨100, 0, none, 0⟩ 999 none none (by decide)
  · exact move_validation.2.2.2.2 [⟨100, 0, none, 0⟩] ⟨100, 0, none, 0⟩ (-1) none (by decide)

/-! ## Claim C3 — author/member handler ordering and the member upgrade -/

/-- C3 counterexample: a message whose author is already a `Member`
(reference `5`), updated with a payload carrying both an `author` and a
`member` field.  The author handler has already replaced the author with the
pooled `User`, so the member handler sees a plain user and constructs a
fresh `Member` (reference `1`): the resulting author's reference is `1`, not
the original `5` — the "updated in place, reference preserved" part of the
claim fails on this input. -/
theorem member_update_replaces_reference_cex :
    (Message.update
        { state := { users := [(9, { ref := 0, id := 9, name := "old" })], nextRef := 1 },
          guild := some { id := 7 },
          msg := { author := some { ref := 5, id := 9, name := "old",
                                    memberData := some { nick := some "nick", roles := [1] } } } }
        { author := some { id := 9, username := "new" },
          member := some { nick := some "n2", roles := [2] } }).1.msg.author =
      some { ref := 1, id := 9, name := "new", bot := false,
             memberData := some { nick := some "n2", roles := [2] } }
    ∧ (1 : Nat) ≠ 5 :=
  ⟨rfl, by decide⟩

/-- C3 amended: in the fixed handler table, `author` is always processed
before `member` (`member` sits last); an update payload carrying both fields
always produces a `Member` author — when the author was a plain `User` this
is the upgrade the claim describes, and when the author was already a
`Member` the author handler has reset the author to the pooled `User` first,
so the member handler builds a fresh `Member` rather than updating the old
one in place; the in-place update that preserves the reference happens for a
payload carrying `member` without `author`. -/
theorem author_before_member_and_upgrade :
    (Message.HANDLERS.indexOf "author" < Message.HANDLERS.indexOf "member")
    ∧ (Message.HANDLERS.getLast? = some "member")
    ∧ (∀ st g m a mp,
        (Message.update { state := st, guild := some g, msg := m }
            { author := some a, member := some mp }).2 = none ∧
        ∃ x, (Message.update { state := st, guild := some g, msg := m }
              { author := some a, member := some mp }).1.msg.author = some x ∧
          x.memberData = some { nick := mp.nick, roles := mp.roles })
    ∧ (∀ ctx mp a0, ctx.msg.author = some a0 → a0.memberData.isSome = true →
        (Message.update ctx { member := some mp }).2 = none ∧
        (Message.update ctx { member := some mp }).1.msg.author =
          some { a0 with memberData := some { nick := mp.nick, roles := mp.roles } }) := by
  refine ⟨by decide, by decide, ?_, ?_⟩
  · intro st g m a mp
    exact ⟨rfl, _, rfl, rfl⟩
  · intro ctx mp a0 ha hm
    obtain ⟨mf, hmf⟩ := Option.isSome_iff_exists.mp hm
    constructor
    · simp [Message.update, Message.runHandlers, Message.HANDLERS, flattenHandlerKeys,
        Message.classDictHandlerKeys, Message.applyHandler, Message.handleMember, ha, hmf]
    · simp [Message.update, Message.runHandlers, Message.HANDLERS, flattenHandlerKeys,
        Message.classDictHandlerKeys, Message.applyHandler, Message.handleMember, ha, hmf]

/-- Witness for C3's amended theorem at a concrete state: a plain-`User`
author upgraded by an author+member payload, and a `Member` author updated
in place (same reference `5`) by a member-only payload. -/
theorem author_before_member_and_upgrade_witness :
    ((Message.update
        ⟨{}, some { id := 7 }, { author := some { ref := 5, id := 9, name := "old" } }⟩
        { author := some { id := 9, username := "new" },
          member := some { nick := some "n2" } }).2 = none ∧
      ∃ x, (Message.update
          ⟨{}, some { id := 7 }, { author := some { ref := 5, id := 9, name := "old" } }⟩
          { author := some { id := 9, username := "new" },
            member := some { nick := some "n2" } }).1.msg.author = some x ∧
        x.memberData = some { nick := some "n2", roles := [] })
    ∧ ((Message.update
          ⟨{}, none, { author := some { ref := 5, id := 9, name := "old", bot := false, memberData := some { nick := some "nick", roles := [1] } } }⟩
          { member := some { nick := some "n3", roles := [3] } }).2 = none ∧
        (Message.update
          ⟨{}, none, { author := some { ref := 5, id := 9, name := "old", bot := false, memberData := some { nick := some "nick", roles := [1] } } }⟩
          { member := some { nick := some "n3", roles := [3] } }).1.msg.author =
          some { ref := 5, id := 9, name := "old", bot := false, memberData := some { nick := some "n3", roles := [3] } }) := by
  constructor
  · exact author_before_member_and_upgrade.2.2.1 {} { id := 7 }
      { author := some { ref := 5, id := 9, name := "old" } }
      { id := 9, username := "new" } { nick := some "n2" }
  · exact author_before_member_and_upgrade.2.2.2
      ⟨{}, none, { author := some { ref := 5, id := 9, name := "old", bot := false, memberData := some { nick := some "nick", roles := [1] } } }⟩
      { nick := some "n3", roles := [3] } _ rfl rfl

/-! ## Claim C10 — the author handler upserts into the guild member map -/

/-- C10: applying an author payload stores the author through the shared
user store and unconditionally inserts that very object into the guild's
member map under its id — afterwards `get_member` on the author's id returns
exactly the object held in `message.author`, a plain `User` (no member
data); with no guild, the handler raises `AttributeError` instead of
completing. -/
theorem handle_author_upserts_into_members (ctx : MsgCtx) (p : UserPayload) :
    (∀ g, ctx.guild = some g →
      ∃ u, (Message.handleAuthor ctx p).1.msg.author = some u ∧
        (Message.handleAuthor ctx p).1.guild = some (g.add_member u) ∧
        Guild.get_member (g.add_member u) u.id = some u ∧
        u.memberData = none ∧
        (Message.handleAuthor ctx p).2 = none)
    ∧ (ctx.guild = none → (Message.handleAuthor ctx p).2 = some .attributeError) := by
  constructor
  · intro g hg
    refine ⟨(ctx.state.store_user p).1.toAuthorObj, ?_, ?_, ?_, rfl, ?_⟩ <;>
      simp [Message.handleAuthor, hg, Guild.add_member, Guild.get_member,
        dictGet_dictSet_self, UserRec.toAuthorObj]
  · intro hg
    simp [Message.handleAuthor, hg]

/-- Witness for C10 with a concrete guild and with no guild. -/
theorem handle_author_upserts_into_members_witness :
    (∃ u, (Message.handleAuthor { guild := some { id := 7 } }
        { id := 9, username := "bob" }).1.msg.author = some u ∧
      (Message.handleAuthor { guild := some { id := 7 } }
        { id := 9, username := "bob" }).1.guild = some (Guild.add_member { id := 7 } u) ∧
      Guild.get_member (Guild.add_member { id := 7 } u) u.id = some u ∧
      u.memberData = none ∧
      (Message.handleAuthor { guild := some { id := 7 } }
        { id := 9, username := "bob" }).2 = none)
    ∧ (Message.handleAuthor { guild := none } { id := 9, username := "bob" }).2 =
        some .attributeError := by
  constructor
  · exact (handle_author_upserts_into_members { guild := some { id := 7 } }
      { id := 9, username := "bob" }).1 { id := 7 } rfl
  · exact (handle_author_upserts_into_members { guild := none }
      { id := 9, username := "bob" }).2 rfl

/-! ## Claim C4 — invalidation of the lazily cached derived properties -/

/-- C4 (evidence of the code defect): the cache slot `_cs_raw_role_mentions` used by
`raw_role_mentions` is missing from `Message.__slots__`, hence absent from
`_CACHED_SLOTS`, so `_update` never invalidates it: after caching the raw
role-mention list of a role-mention content and then applying an update that
empties the content, the next read still returns the stale list even though
recomputing from the updated content yields `[]`.  The other cached slots —
all the members of `_CACHED_SLOTS` — are cleared by every successful
update. -/
theorem raw_role_mentions_cache_not_invalidated :
    ("_cs_raw_role_mentions" ∉ Message.CACHED_SLOTS)
    ∧ ((Message.update
          { msg := (Message.raw_role_mentions { content := "<@&100000000000000001>" }).2 }
          { content := some "" }).2 = none ∧
        (Message.update
          { msg := (Message.raw_role_mentions { content := "<@&100000000000000001>" }).2 }
          { content := some "" }).1.msg.content = "" ∧
        (Message.raw_role_mentions (Message.update
          { msg := (Message.raw_role_mentions { content := "<@&100000000000000001>" }).2 }
          { content := some "" }).1.msg).1 = [100000000000000001] ∧
        computeRawRoleMentions "" = [])
    ∧ (∀ ctx p r, Message.update ctx p = (r, none) →
        ∀ s ∈ Message.CACHED_SLOTS, dictGet s r.msg.cache = none) := by
  refine ⟨by decide, ⟨rfl, rfl, by decide, rfl⟩, ?_⟩
  · intro ctx p r h s hs
    rcases hrun : Message.runHandlers ctx p with ⟨ctx', err⟩
    rw [Message.update, hrun] at h
    cases err with
    | some e => simp at h
    | none =>
        simp only [Prod.mk.injEq] at h
        rw [← h.1]
        exact foldl_dictDel_mem s _ _ hs

/-- Witness for C4's universally quantified part at a concrete update. -/
theorem raw_role_mentions_cache_not_invalidated_witness :
    dictGet "_cs_raw_mentions"
      ((Message.update
        { msg := (Message.raw_mentions { content := "<@100000000000000001>" }).2 }
        { content := some "" }).1.msg.cache) = none := by
  refine raw_role_mentions_cache_not_invalidated.2.2
    { msg := (Message.raw_mentions { content := "<@100000000000000001>" }).2 }
    { content := some "" } _ rfl "_cs_raw_mentions" (by decide)

/-! ## Claim C8 — `clean_content` substitution -/

/-- C8: on a message whose content holds a resolvable channel token and a
user token in both `<@id>` and `<@!id>` forms (the two forms share the
textual prefix `<@`), `clean_content` replaces the channel token by
`#name` and both user tokens by `@displayName` in one pass; the second
channel's name itself contains a user-mention token, and that replacement
output is not re-substituted. -/
theorem clean_content_substitutes :
    (Message.clean_content
        (some { id := 7,
                channels := [(100000000000000001, { id := 100000000000000001, name := "general" }),
                             (100000000000000003,
                              { id := 100000000000000003, name := "x<@100000000000000002>y" })] })
        { content := "hi <#100000000000000001> <@100000000000000002> <@!100000000000000002> and <#100000000000000003> bye",
          mentions := [{ ref := 0, id := 100000000000000002, name := "Alice" }] }).1 =
      "hi #general @Alice @Alice and #x<@100000000000000002>y bye" := by
  decide

end QQPy
